import Mathlib

/-!
A verification development for the psychofauna repository: a two-stage
pipeline that (1) synthesizes a labeled engagement-bait dataset from a
generative-model response (src/dataset.py) and (2) prepares that dataset
and fine-tunes a binary classifier (src/train/train.py, src/train.py).

The source is Python; this file shallowly embeds the repository functions.
External library calls are handled as follows:
  - the network call of the Generation Client is modelled by taking the
    raw model response (or the transport error it raised) as an input;
  - json.loads is modelled as a parameter parseJson returning an optional
    Json tree, since its internals are not part of this repository;
  - functions of sklearn and of the transformers Trainer that the source
    merely invokes (train_test_split, the early-stopping training loop)
    are modelled from the specification and are marked as such in their
    doc comments.
Python strings are Lean strings; a raised exception is the error side of
an Except value; machine floats of the metrics are modelled as rationals.
-/

namespace Psychofauna

/-! ### JSON values (the shape json.loads produces) -/

/-- A parsed JSON tree, as produced by the json.loads call in
src/dataset.py. Objects keep their field order as an association list. -/
inductive Json where
  | null : Json
  | bool : Bool → Json
  | num : Int → Json
  | str : String → Json
  | arr : List Json → Json
  | obj : List (String × Json) → Json

/-- Field access on a JSON object, first binding wins (a parsed JSON
object has unique keys, duplicates having been collapsed by the parser). -/
def lookupField : List (String × Json) → String → Option Json
  | [], _ => none
  | (k, v) :: rest, key => if k == key then some v else lookupField rest key

/-- One row of the generated dataset: dict with keys text and label in
src/dataset.py lines 105-108. The text holds whatever JSON value the
model supplied for the field; the label is the integer 1 or 0. -/
structure Row where
  text : Json
  label : Nat

/-- The exceptions that can escape generate_outrage_examples: a transport
or API error from the generate_content call, a json.JSONDecodeError
(carrying the offending cleaned text, which line 99 of src/dataset.py
logs), a KeyError from a missing example field, or a TypeError from
indexing a non-dict element. -/
inductive GenError where
  | apiError : String → GenError
  | jsonDecodeError : String → GenError
  | keyError : String → GenError
  | typeError : String → GenError
deriving DecidableEq

/-! ### Fence stripping (src/dataset.py lines 84-90)

The code runs, in order: str.strip, then
re.sub on the pattern anchored-backtick-backtick-backtick-json-newline
OR newline-backtick-backtick-backtick-dollar, then the same with the
plain three-backtick opening fence, then str.strip again.  Without
re.MULTILINE the caret matches only at position 0 and the dollar matches
at the end of the string or just before a trailing final newline, so each
re.sub call removes at most one prefix occurrence and one suffix
occurrence, and they cannot overlap. -/

/-- Python str.strip on the character list of a string: drop whitespace
from both ends (the source texts are ASCII, where the Python and Lean
whitespace classes agree). -/
def trimChars (l : List Char) : List Char :=
  ((l.dropWhile Char.isWhitespace).reverse.dropWhile Char.isWhitespace).reverse

/-- The four characters of the suffix alternative of both patterns. -/
def nlFence : List Char := "\n```".data

/-- The suffix alternative followed by a final trailing newline, the
second position at which the Python dollar anchor matches. -/
def nlFenceNl : List Char := "\n```\n".data

/-- The anchored opening alternative of the first pattern. -/
def fenceJsonOpen : List Char := "```json\n".data

/-- The anchored opening alternative of the second pattern. -/
def fencePlainOpen : List Char := "```".data

/-- Remove one match of the suffix alternative: the four characters of
nlFence ending at the end of the string, or ending just before a final
trailing newline (Python dollar semantics without re.MULTILINE). -/
def removeNlFenceSuffix (l : List Char) : List Char :=
  if nlFence.isSuffixOf l then l.take (l.length - 4)
  else if nlFenceNl.isSuffixOf l then l.take (l.length - 5) ++ ['\n']
  else l

/-- The first re.sub of src/dataset.py line 87: strip a leading
fence-with-json-tag and a trailing newline-fence. -/
def subFenceJson (l : List Char) : List Char :=
  removeNlFenceSuffix (if fenceJsonOpen.isPrefixOf l then l.drop 8 else l)

/-- The second re.sub of src/dataset.py line 89: strip a leading bare
three-backtick fence and a trailing newline-fence. -/
def subFencePlain (l : List Char) : List Char :=
  removeNlFenceSuffix (if fencePlainOpen.isPrefixOf l then l.drop 3 else l)

/-- Lines 85-90 of src/dataset.py at the character level: trim, the two
re.sub passes, trim. -/
def cleanChars (l : List Char) : List Char :=
  trimChars (subFencePlain (subFenceJson (trimChars l)))

/-- Lines 85-90 of src/dataset.py: the cleaned response text. -/
def cleanResponseText (s : String) : String := String.mk (cleanChars s.data)

/-! ### Building rows from parsed examples (src/dataset.py lines 102-111) -/

/-- Lines 105-108 of src/dataset.py for a single loop element: index the
element by the engagement_bait key and then by the genuine_content key
(a missing key raises KeyError, a non-dict element raises TypeError),
and emit the bait row labeled 1 followed by the genuine row labeled 0.
The topic field is never read by the code. -/
def exampleRows (ex : Json) : Except GenError (List Row)
  := match ex with
  | .obj fields =>
    match lookupField fields "engagement_bait" with
    | none => .error (.keyError "engagement_bait")
    | some bait =>
      match lookupField fields "genuine_content" with
      | none => .error (.keyError "genuine_content")
      | some gen => .ok [⟨bait, 1⟩, ⟨gen, 0⟩]
  | _ => .error (.typeError "element is not a dict")

/-- Python iteration over the value json.loads returned: a list yields
its elements, a dict yields its keys, a string yields its characters,
anything else raises TypeError. -/
def iterElems : Json → Except GenError (List Json)
  | .arr l => .ok l
  | .obj fields => .ok (fields.map (fun kv => .str kv.1))
  | .str s => .ok (s.toList.map (fun c => .str (String.mk [c])))
  | _ => .error (.typeError "object is not iterable")

/-- The accumulation loop of src/dataset.py lines 102-108: rows of each
element in order; the first failing element aborts the whole call and the
locally accumulated rows are discarded. -/
def buildRows : List Json → Except GenError (List Row)
  | [] => .ok []
  | ex :: rest =>
    match exampleRows ex with
    | .error e => .error e
    | .ok rs =>
      match buildRows rest with
      | .error e => .error e
      | .ok rest2 => .ok (rs ++ rest2)

/-- generate_outrage_examples, src/dataset.py lines 18-115.  The network
call is modelled by the response argument (either the raw text the model
returned or the transport error the call raised); json.loads is the
parseJson parameter.  Every internal exception is logged and re-raised
(lines 97-100 and 113-115), so it surfaces as the error side here; the
jsonDecodeError value carries the offending cleaned text that line 99
logs.  On success the function returns the DataFrame rows in order. -/
def generate_outrage_examples (parseJson : String → Option Json)
    (response : Except GenError String) : Except GenError (List Row) :=
  match response with
  | .error e => .error e
  | .ok text =>
    let cleaned := cleanResponseText text
    match parseJson cleaned with
    | none => .error (.jsonDecodeError cleaned)
    | some examples =>
      match iterElems examples with
      | .error e => .error e
      | .ok elems => buildRows elems

/-- Observable outcome of the dataset-generation process entry point
(src/dataset.py lines 117-132): the rows written to
outrage_training_data.csv if the to_csv call ran, the process exit code,
and the errors the top-level handler logged.  The handler at lines
131-132 catches every exception, logs it, and does not re-raise, so the
script falls off the end and the process exits with code 0 either way. -/
structure MainOutcome where
  written : Option (List Row)
  exitCode : Nat
  loggedErrors : List GenError

/-- The dataset-generation entry point, src/dataset.py lines 117-132. -/
def datasetMain (parseJson : String → Option Json)
    (response : Except GenError String) : MainOutcome :=
  match generate_outrage_examples parseJson response with
  | .ok rows => ⟨some rows, 0, []⟩
  | .error e => ⟨none, 0, [e]⟩

/-! ### The training stage: dataset preparation (src/train/train.py) -/

/-- A loaded pandas DataFrame as read from the delimited file: a header
of column names and the rows, each row one cell per column.  Cells are
kept as the field strings of the file. -/
structure DF where
  cols : List String
  rows : List (List String)
deriving DecidableEq

/-- The exceptions prepare_dataset can raise: the KeyError a pandas
column access raises for an absent column, the explicit ValueError of
src/train/train.py line 86, and the FileNotFoundError of read_csv. -/
inductive PrepError where
  | keyError : String → PrepError
  | valueError : String → PrepError
  | fileNotFound : String → PrepError
deriving DecidableEq

/-- Position of a column name in the header, as pandas column lookup:
none models the KeyError for an absent column. -/
def colIndex : List String → String → Option Nat
  | [], _ => none
  | c0 :: rest, c => if c0 == c then some 0 else (colIndex rest c).map (· + 1)

/-- Column membership in the header (the Python col in df.columns). -/
def hasCol (cols : List String) (c : String) : Bool := (colIndex cols c).isSome

/-- The cell of a row at a column position (rows of a parsed delimited
file always have a cell per column). -/
def cellAt (i : Nat) (r : List String) : String := r.getD i ""

/-- The rows whose label cell equals a given class value. -/
def classRows (i : Nat) (rows : List (List String)) (c : String) : List (List String) :=
  rows.filter (fun r => cellAt i r == c)

/-- The test share of one label class: after the seed-driven shuffle
(modelled as a rotation), a fifth of the class rows, rounded down. -/
def testChunk (seed i : Nat) (rows : List (List String)) (d : String) :
    List (List String) :=
  ((classRows i rows d).rotate seed).take ((classRows i rows d).length / 5)

/-- The train share of one label class: the rows not sent to test. -/
def trainChunk (seed i : Nat) (rows : List (List String)) (d : String) :
    List (List String) :=
  ((classRows i rows d).rotate seed).drop ((classRows i rows d).length / 5)

/-- Modelled from the spec: sklearn.model_selection.train_test_split
(src/train/train.py lines 76-81), which is library code not under src/.
Per the spec it performs a stratified random split at the default 80/20
ratio, deterministic for a fixed random_state seed; with no seed the
shuffle depends on ambient process entropy.  The model groups the rows
by their label cell, deterministically shuffles each group by rotating
it with the effective seed, and sends a fifth (rounded down) of each
group to the test partition and the rest to the train partition. -/
def train_test_split (randomState : Option Nat) (ambientEntropy : Nat)
    (i : Nat) (df : DF) : DF × DF :=
  let seed := randomState.getD ambientEntropy
  let classes := (df.rows.map (cellAt i)).dedup
  (⟨df.cols, (classes.map (trainChunk seed i df.rows)).flatten⟩,
    ⟨df.cols, (classes.map (testChunk seed i df.rows)).flatten⟩)

/-- prepare_dataset, src/train/train.py lines 63-98.  The steps in
source order: read_csv gave the df argument; the class-distribution
logging at line 72 accesses the label column and is the first point that
raises KeyError when that column is absent; the stratified split at
lines 76-81 follows (random_state fixed to 42 in the source); only then
does the explicit required-columns check at lines 84-86 raise its
ValueError; finally the two partitions are returned.  Each exception is
logged at line 97 and re-raised. -/
def prepare_dataset (ambientEntropy : Nat) (df : DF) :
    Except PrepError (DF × DF) :=
  match colIndex df.cols "label" with
  | none => .error (.keyError "label")
  | some i =>
    let parts := train_test_split (some 42) ambientEntropy i df
    if hasCol df.cols "text" && hasCol df.cols "label" then .ok parts
    else .error (.valueError "Dataset must contain columns: text, label")

/-- Outcome of the training stage up to tokenization (train,
src/train/train.py lines 100-143): prepare_dataset runs first, and the
tokenizer is loaded and applied only after it returned; on an exception
no row is ever tokenized. -/
structure StageOutcome where
  prep : Except PrepError (DF × DF)
  tokenizedRowCount : Nat

/-- The call order of train, src/train/train.py lines 104-143, up to the
tokenization map. -/
def trainStage (ambientEntropy : Nat) (df : DF) : StageOutcome :=
  match prepare_dataset ambientEntropy df with
  | .error e => ⟨.error e, 0⟩
  | .ok p => ⟨.ok p, p.1.rows.length + p.2.rows.length⟩

/-- A file system for the preparer run: file path to parsed contents. -/
def lookupFile : List (String × DF) → String → Option DF
  | [], _ => none
  | (p, df) :: rest, path => if p == path then some df else lookupFile rest path

/-- A whole invocation of the Dataset Preparer on a file system: the
result and the file system it leaves behind.  prepare_dataset only reads
the file (src/train/train.py line 68); it contains no write call, so the
run returns the file system unchanged. -/
structure PreparerRun where
  result : Except PrepError (DF × DF)
  filesAfter : List (String × DF)

/-- One invocation of prepare_dataset on a stored file, with whatever
ambient entropy the process happened to have. -/
def runPreparer (files : List (String × DF)) (path : String)
    (ambientEntropy : Nat) : PreparerRun :=
  match lookupFile files path with
  | none => ⟨.error (.fileNotFound path), files⟩
  | some df => ⟨prepare_dataset ambientEntropy df, files⟩

/-! ### Evaluation metrics (compute_metrics, src/train/train.py 36-61)

The sklearn calls are evaluated by their binary-average formulas with
the zero_division=0 argument the source passes: precision is the share
of predicted positives that are true positives (0 when nothing is
predicted positive), recall the share of actual positives recovered
(0 when there is no actual positive), f1 their harmonic mean (0 when
precision + recall is 0), accuracy the share of agreeing pairs. -/

/-- The four values the returned metric dict of compute_metrics holds
(recallScore stands for the recall entry of the dict, whose source name
is taken by a Lean command). -/
structure Metrics where
  accuracy : ℚ
  f1 : ℚ
  precision : ℚ
  recallScore : ℚ
deriving DecidableEq

/-- True positives: pairs predicted 1 whose label is 1. -/
def countTP (labels preds : List Nat) : Nat :=
  (labels.zip preds).countP (fun lp => lp.1 == 1 && lp.2 == 1)

/-- Predicted positives. -/
def countPredPos (preds : List Nat) : Nat := preds.countP (· == 1)

/-- Actual positives among the labels. -/
def countActualPos (labels : List Nat) : Nat := labels.countP (· == 1)

/-- Agreeing label/prediction pairs. -/
def countCorrect (labels preds : List Nat) : Nat :=
  (labels.zip preds).countP (fun lp => lp.1 == lp.2)

/-- compute_metrics, src/train/train.py lines 36-61: binary precision,
recall and f1 with zero_division=0, and accuracy. -/
def compute_metrics (labels preds : List Nat) : Metrics :=
  let tp : ℚ := countTP labels preds
  let pp : ℚ := countPredPos preds
  let ap : ℚ := countActualPos labels
  let prec : ℚ := if pp = 0 then 0 else tp / pp
  let recl : ℚ := if ap = 0 then 0 else tp / ap
  let f1v : ℚ := if prec + recl = 0 then 0 else 2 * prec * recl / (prec + recl)
  let acc : ℚ := (countCorrect labels preds : ℚ) / (labels.length : ℚ)
  ⟨acc, f1v, prec, recl⟩

/-! ### The training loop driver (train, src/train/train.py 100-214)

Modelled from the spec: the loop itself lives in the transformers
Trainer and EarlyStoppingCallback, which are library code not under
src/; the source fixes its observable parameters (metric_for_best_model
f1, load_best_model_at_end, early_stopping_patience 3).  The model
consumes the sequence of f1 values the periodic evaluations would
produce: each evaluation either improves on the best f1 seen so far
(strictly, resetting the stale counter and recording the checkpoint) or
increments the stale counter; the loop stops once the counter reaches
the patience, or when the training budget (the end of the sequence) is
reached, and the persisted model is the recorded best checkpoint. -/

/-- Early-stopping bookkeeping: the best f1 observed so far (none before
the first evaluation), the index of the evaluation that produced it, and
the count of consecutive evaluations without improvement since. -/
structure ESState where
  bestF1 : Option ℚ
  bestIdx : Nat
  stale : Nat
deriving DecidableEq

/-- Whether an evaluation value improves on the best metric so far: any
first value does, after that only a strictly greater value. -/
def isImprovement : Option ℚ → ℚ → Bool
  | none, _ => true
  | some b, v => decide (b < v)

/-- One evaluation at a given index. -/
def esStep (idx : Nat) (v : ℚ) (s : ESState) : ESState :=
  if isImprovement s.bestF1 v then ⟨some v, idx, 0⟩
  else ⟨s.bestF1, s.bestIdx, s.stale + 1⟩

/-- Run evaluations in order from a state, stopping when the stale count
reaches the patience; returns how many evaluations ran in total and the
final state. -/
def esRun (patience : Nat) : ESState → Nat → List ℚ → Nat × ESState
  | s, idx, [] => (idx, s)
  | s, idx, v :: rest =>
    let s2 := esStep idx v s
    if patience ≤ s2.stale then (idx + 1, s2)
    else esRun patience s2 (idx + 1) rest

/-- What a finished training run leaves behind: the number of
evaluations that ran, the index of the checkpoint the persisted model
corresponds to (load_best_model_at_end with metric f1), and its f1. -/
structure TrainOutcome where
  evalsRun : Nat
  persistedIdx : Nat
  persistedF1 : Option ℚ
deriving DecidableEq

/-- The training run of src/train/train.py line 180 under the arguments
of lines 146-177: early_stopping_patience 3, metric_for_best_model f1,
load_best_model_at_end true. -/
def trainLoop (f1s : List ℚ) : TrainOutcome :=
  let r := esRun 3 ⟨none, 0, 0⟩ 0 f1s
  ⟨r.1, r.2.bestIdx, r.2.bestF1⟩

/-! ### Claim-side predicates and concrete instances -/

/-- A parsed example object is well formed when it carries the
engagement_bait, genuine_content and topic fields. -/
def hasRequiredFields (ex : Json) : Bool :=
  match ex with
  | .obj fields =>
    (lookupField fields "engagement_bait").isSome &&
      (lookupField fields "genuine_content").isSome &&
      (lookupField fields "topic").isSome
  | _ => false

/-- The engagement_bait field of a well-formed example. -/
def baitField (ex : Json) : Json :=
  match ex with
  | .obj fields => (lookupField fields "engagement_bait").getD .null
  | _ => .null

/-- The genuine_content field of a well-formed example. -/
def genuineField (ex : Json) : Json :=
  match ex with
  | .obj fields => (lookupField fields "genuine_content").getD .null
  | _ => .null

/-- The per-row invariant the spec asserts of the generated dataset:
the text is a non-empty string and the label is 0 or 1. -/
def rowOk (r : Row) : Bool :=
  (match r.text with
    | .str s => !s.isEmpty
    | _ => false) &&
    (r.label == 0 || r.label == 1)

/-- Count of rows carrying a given label. -/
def countLabelRows (rows : List Row) (n : Nat) : Nat :=
  rows.countP (fun r => r.label == n)

/-- Count of DataFrame rows whose label cell is a given class value. -/
def countClass (i : Nat) (rows : List (List String)) (c : String) : Nat :=
  rows.countP (fun r => cellAt i r == c)

/-- A stub json.loads that always fails, standing for a model response
that is not valid JSON. -/
def parseAlwaysFails : String → Option Json := fun _ => none

/-- A stub json.loads returning one well-formed example. -/
def parseOneExample : String → Option Json := fun _ =>
  some (.arr [.obj
    [("engagement_bait", .str "b"), ("genuine_content", .str "g"),
      ("topic", .str "t")]])

/-- A stub json.loads returning one example whose engagement_bait text
is the empty string (nothing in the source rules this out). -/
def parseEmptyBait : String → Option Json := fun _ =>
  some (.arr [.obj
    [("engagement_bait", .str ""), ("genuine_content", .str "g"),
      ("topic", .str "t")]])

/-- Does a preparation result consist of the explicit dataset-schema
ValueError? -/
def resultIsValueError : Except PrepError (DF × DF) → Bool
  | .error (.valueError _) => true
  | _ => false

/-- A DataFrame with no label column. -/
def dfNoLabel : DF := ⟨["text"], [["a"], ["b"]]⟩

/-- A DataFrame with a label column but no text column. -/
def dfNoText : DF := ⟨["body", "label"], [["a", "1"], ["b", "0"]]⟩

/-- A small complete DataFrame. -/
def dfSmall : DF :=
  ⟨["text", "label"],
    [["a", "1"], ["b", "0"], ["c", "1"], ["d", "0"], ["e", "1"]]⟩

/-! ## Theorems -/

/-- C3: for every raw model response whose cleaned text is not valid
JSON, generate_outrage_examples raises (the JSONDecodeError carrying the
offending cleaned text, which is what the source logs before
re-raising) instead of returning a table, and the entry point writes no
dataset file at all. -/
theorem c3_malformed_response_aborts_without_writing
    (parseJson : String → Option Json) (raw : String)
    (h : parseJson (cleanResponseText raw) = none) :
    generate_outrage_examples parseJson (.ok raw)
        = .error (.jsonDecodeError (cleanResponseText raw)) ∧
      (datasetMain parseJson (.ok raw)).written = none := by
  refine ⟨?_, ?_⟩ <;>
    simp [generate_outrage_examples, datasetMain, h]

/-- Witness for C3 at a concrete failing parse. -/
theorem c3_witness :
    generate_outrage_examples parseAlwaysFails (.ok "not json at all")
        = .error (.jsonDecodeError (cleanResponseText "not json at all")) ∧
      (datasetMain parseAlwaysFails (.ok "not json at all")).written = none :=
  c3_malformed_response_aborts_without_writing parseAlwaysFails
    "not json at all" rfl

/-- C9, counterexample: a generation run whose JSON parse fails raises
and logs the error, yet the process exit code is 0 — the top-level
handler of src/dataset.py lines 131-132 swallows the exception — so the
claimed non-zero process outcome is false at this input. -/
theorem c9_counterexample :
    generate_outrage_examples parseAlwaysFails (.ok "oops")
        = .error (.jsonDecodeError "oops") ∧
      (datasetMain parseAlwaysFails (.ok "oops")).exitCode = 0 :=
  ⟨rfl, rfl⟩

/-- C9 amended: every error raised in the generation stage (transport or
API error, JSON parse failure, missing field) is logged and re-raised
out of generate_outrage_examples, nothing is written and nothing is
retried; but the enclosing entry point catches it, logs it once more and
suppresses it, so the process exits with code 0, not a non-zero code. -/
theorem c9_amended_error_logged_but_exit_zero
    (parseJson : String → Option Json) (response : Except GenError String)
    (e : GenError)
    (h : generate_outrage_examples parseJson response = .error e) :
    datasetMain parseJson response = ⟨none, 0, [e]⟩ := by
  simp [datasetMain, h]

/-- Witness for C9 at a concrete transport error. -/
theorem c9_amended_witness :
    datasetMain parseOneExample (.error (.apiError "quota"))
        = ⟨none, 0, [.apiError "quota"]⟩ :=
  c9_amended_error_logged_but_exit_zero parseOneExample
    (.error (.apiError "quota")) (.apiError "quota") rfl

/-- C4, counterexample: fence stripping is not idempotent.  On the
response consisting of six backticks, one application leaves three
backticks (only the second pattern fires, once), while a second
application removes those too. -/
theorem c4_counterexample :
    cleanResponseText (cleanResponseText "``````")
      ≠ cleanResponseText "``````" := by decide

/-- C4 amended: the transformation is not idempotent on every string
(six backticks is a counterexample), but it is the identity on already
clean inputs: a string that is whitespace-trimmed, does not begin with a
three-backtick fence (tagged or bare) and does not end in a
newline-fence suffix, in particular an already-unfenced JSON text, is
returned unchanged, so on such outputs reapplication changes nothing. -/
theorem c4_amended_identity_on_unfenced (s : String)
    (htrim : trimChars s.data = s.data)
    (hpre : fencePlainOpen.isPrefixOf s.data = false)
    (hpreJson : fenceJsonOpen.isPrefixOf s.data = false)
    (hsuf : nlFence.isSuffixOf s.data = false)
    (hsufNl : nlFenceNl.isSuffixOf s.data = false) :
    cleanResponseText s = s := by
  have h : cleanChars s.data = s.data := by
    simp [cleanChars, subFenceJson, subFencePlain, removeNlFenceSuffix,
      htrim, hpre, hpreJson, hsuf, hsufNl]
  show String.mk (cleanChars s.data) = s
  rw [h]

/-- Witness for C4 at a concrete unfenced JSON text. -/
theorem c4_witness : cleanResponseText "[1, 2]" = "[1, 2]" :=
  c4_amended_identity_on_unfenced "[1, 2]" (by decide) (by decide)
    (by decide) (by decide) (by decide)

/-- A well-formed example yields exactly its bait row then its genuine
row. -/
lemma exampleRows_eq_of_wf (ex : Json) (h : hasRequiredFields ex = true) :
    exampleRows ex = .ok [⟨baitField ex, 1⟩, ⟨genuineField ex, 0⟩] := by
  cases ex with
  | obj fields =>
    simp only [hasRequiredFields, Bool.and_eq_true,
      Option.isSome_iff_exists] at h
    obtain ⟨⟨⟨b, hb⟩, g, hg⟩, -⟩ := h
    simp [exampleRows, baitField, genuineField, hb, hg]
  | null => simp [hasRequiredFields] at h
  | bool b => simp [hasRequiredFields] at h
  | num n => simp [hasRequiredFields] at h
  | str s => simp [hasRequiredFields] at h
  | arr l => simp [hasRequiredFields] at h

/-- The accumulation loop on a list of well-formed examples: two rows
per example, bait then genuine, in the original order. -/
lemma buildRows_wf (exs : List Json)
    (h : ∀ ex ∈ exs, hasRequiredFields ex = true) :
    ∃ rows, buildRows exs = .ok rows ∧ rows.length = 2 * exs.length ∧
      ∀ i ex, exs[i]? = some ex →
        rows[2 * i]? = some ⟨baitField ex, 1⟩ ∧
          rows[2 * i + 1]? = some ⟨genuineField ex, 0⟩ := by
  induction exs with
  | nil => exact ⟨[], rfl, rfl, fun i ex hi => by simp at hi⟩
  | cons ex rest ih =>
    obtain ⟨rows, hr, hlen, hidx⟩ :=
      ih (fun e he => h e (List.mem_cons_of_mem _ he))
    have hex := exampleRows_eq_of_wf ex (h ex (List.mem_cons_self _ _))
    refine ⟨⟨baitField ex, 1⟩ :: ⟨genuineField ex, 0⟩ :: rows, ?_, ?_, ?_⟩
    · simp [buildRows, hex, hr]
    · simp only [List.length_cons, hlen, List.length_cons]
      omega
    · intro i ex' hi
      match i with
      | 0 =>
        simp only [List.getElem?_cons_zero, Option.some.injEq] at hi
        subst hi
        exact ⟨by simp, by simp⟩
      | Nat.succ n =>
        have hi2 : rest[n]? = some ex' := by simpa using hi
        have h2 := hidx n ex' hi2
        have e1 : 2 * (n + 1) = 2 * n + 1 + 1 := by ring
        have e2 : 2 * (n + 1) + 1 = 2 * n + 1 + 1 + 1 := by ring
        constructor
        · rw [e1, List.getElem?_cons_succ, List.getElem?_cons_succ]
          exact h2.1
        · rw [e2, List.getElem?_cons_succ, List.getElem?_cons_succ]
          exact h2.2

/-- C1: for every well-formed parsed model response (a JSON array whose
objects all carry the engagement_bait, genuine_content and topic
fields), generate_outrage_examples returns a table of exactly twice as
many rows as examples, where example i contributes its bait text with
label 1 at position 2i immediately followed by its genuine text with
label 0 at position 2i+1, preserving the example order. -/
theorem c1_two_rows_per_example_in_order
    (parseJson : String → Option Json) (raw : String) (exs : List Json)
    (hparse : parseJson (cleanResponseText raw) = some (.arr exs))
    (hwf : ∀ ex ∈ exs, hasRequiredFields ex = true) :
    ∃ rows, generate_outrage_examples parseJson (.ok raw) = .ok rows ∧
      rows.length = 2 * exs.length ∧
      ∀ i ex, exs[i]? = some ex →
        rows[2 * i]? = some ⟨baitField ex, 1⟩ ∧
          rows[2 * i + 1]? = some ⟨genuineField ex, 0⟩ := by
  obtain ⟨rows, hr, hlen, hidx⟩ := buildRows_wf exs hwf
  exact ⟨rows,
    by simp [generate_outrage_examples, hparse, iterElems, hr], hlen, hidx⟩

/-- Witness for C1: one well-formed example yields a two-row table. -/
theorem c1_witness :
    (generate_outrage_examples parseOneExample (.ok "resp")).toOption.map
        List.length = some 2 := by
  obtain ⟨rows, hr, hlen, -⟩ :=
    c1_two_rows_per_example_in_order parseOneExample "resp"
      [.obj [("engagement_bait", .str "b"), ("genuine_content", .str "g"),
        ("topic", .str "t")]]
      rfl
      (by intro ex hex; rw [List.mem_singleton] at hex; subst hex; rfl)
  rw [hr]
  show some rows.length = some 2
  rw [hlen]
  rfl

/-- A successful per-example call yields a label-1 row then a label-0
row, whatever the field values were. -/
lemma exampleRows_ok_shape (ex : Json) (rs : List Row)
    (h : exampleRows ex = .ok rs) : ∃ b g, rs = [⟨b, 1⟩, ⟨g, 0⟩] := by
  cases ex with
  | obj fields =>
    simp only [exampleRows] at h
    cases hb : lookupField fields "engagement_bait" with
    | none => rw [hb] at h; cases h
    | some b =>
      rw [hb] at h
      cases hg : lookupField fields "genuine_content" with
      | none => rw [hg] at h; cases h
      | some g =>
        rw [hg] at h
        injection h with h2
        exact ⟨b, g, h2.symm⟩
  | null => simp [exampleRows] at h
  | bool b => simp [exampleRows] at h
  | num n => simp [exampleRows] at h
  | str s => simp [exampleRows] at h
  | arr l => simp [exampleRows] at h

/-- Any table the accumulation loop returns has labels in 0 and 1 only
and exactly as many label-1 rows as label-0 rows. -/
lemma buildRows_labels_balance (exs : List Json) (rows : List Row)
    (h : buildRows exs = .ok rows) :
    (∀ r ∈ rows, r.label = 0 ∨ r.label = 1) ∧
      countLabelRows rows 1 = countLabelRows rows 0 := by
  induction exs generalizing rows with
  | nil =>
    have h2 : (Except.ok [] : Except GenError (List Row)) = .ok rows := h
    injection h2 with h3
    subst h3
    simp [countLabelRows]
  | cons ex rest ih =>
    unfold buildRows at h
    cases hex : exampleRows ex with
    | error e => rw [hex] at h; cases h
    | ok rs =>
      rw [hex] at h
      cases hrest : buildRows rest with
      | error e => rw [hrest] at h; cases h
      | ok rest2 =>
        rw [hrest] at h
        injection h with h2
        subst h2
        obtain ⟨hlab, hbal⟩ := ih rest2 hrest
        obtain ⟨b, g, hshape⟩ := exampleRows_ok_shape ex rs hex
        subst hshape
        constructor
        · intro r hr
          simp only [List.cons_append, List.mem_cons, List.nil_append] at hr
          rcases hr with h1 | h1 | h1
          · right; rw [h1]
          · left; rw [h1]
          · exact hlab r h1
        · simp [countLabelRows, List.countP_cons] at hbal ⊢
          omega

/-- generate_outrage_examples only succeeds through the accumulation
loop. -/
lemma generate_ok_buildRows (parseJson : String → Option Json)
    (response : Except GenError String) (rows : List Row)
    (h : generate_outrage_examples parseJson response = .ok rows) :
    ∃ elems, buildRows elems = .ok rows := by
  cases response with
  | error e => simp [generate_outrage_examples] at h
  | ok text =>
    dsimp only [generate_outrage_examples] at h
    cases hp : parseJson (cleanResponseText text) with
    | none => rw [hp] at h; cases h
    | some j =>
      simp only [hp] at h
      cases hit : iterElems j with
      | error e => simp only [hit] at h; exact (Except.noConfusion h)
      | ok elems => simp only [hit] at h; exact ⟨elems, h⟩

/-- C5, counterexample: nothing in the source checks the model-supplied
strings, so a successful generation run can contain a row whose text is
the empty string, violating the claimed non-empty-text invariant. -/
theorem c5_counterexample :
    generate_outrage_examples parseEmptyBait (.ok "resp")
        = .ok [⟨.str "", 1⟩, ⟨.str "g", 0⟩] ∧
      rowOk ⟨.str "", 1⟩ = false :=
  ⟨rfl, rfl⟩

/-- C5 amended: for every successful generation run, every row's label
is 0 or 1 and the dataset is exactly 50/50 balanced by construction (one
label-1 and one label-0 row per parsed example); the text of a row is
exactly the model-supplied field value and may be empty or non-string —
the source validates nothing about it. -/
theorem c5_amended_labels_and_balance
    (parseJson : String → Option Json) (response : Except GenError String)
    (rows : List Row)
    (h : generate_outrage_examples parseJson response = .ok rows) :
    (∀ r ∈ rows, r.label = 0 ∨ r.label = 1) ∧
      countLabelRows rows 1 = countLabelRows rows 0 := by
  obtain ⟨elems, he⟩ := generate_ok_buildRows parseJson response rows h
  exact buildRows_labels_balance elems rows he

/-- Witness for C5 on a concrete successful run. -/
theorem c5_witness :
    countLabelRows [(⟨.str "b", 1⟩ : Row), ⟨.str "g", 0⟩] 1
        = countLabelRows [(⟨.str "b", 1⟩ : Row), ⟨.str "g", 0⟩] 0 :=
  (c5_amended_labels_and_balance parseOneExample (.ok "resp")
    [⟨.str "b", 1⟩, ⟨.str "g", 0⟩] rfl).2

/-- C2, counterexample: on a dataset with no label column,
prepare_dataset raises the KeyError of the class-distribution access at
src/train/train.py line 72, not the explicit dataset-schema ValueError
of line 86 the claim names — the required-columns check sits after the
first label access and is never reached. -/
theorem c2_counterexample :
    prepare_dataset 0 dfNoLabel = .error (.keyError "label") ∧
      resultIsValueError (prepare_dataset 0 dfNoLabel) = false :=
  ⟨rfl, rfl⟩

/-- C2 amended: a missing label column raises a KeyError (from the
class-distribution logging and stratify access that precede the check),
while a missing text column with label present raises the explicit
dataset-schema ValueError naming the required columns; in both cases
the error is raised before any tokenization occurs. -/
theorem c2_amended_missing_column_errors
    (ambientEntropy : Nat) (df : DF) :
    (hasCol df.cols "label" = false →
      prepare_dataset ambientEntropy df = .error (.keyError "label") ∧
        (trainStage ambientEntropy df).tokenizedRowCount = 0) ∧
    (hasCol df.cols "label" = true → hasCol df.cols "text" = false →
      prepare_dataset ambientEntropy df
          = .error (.valueError "Dataset must contain columns: text, label") ∧
        (trainStage ambientEntropy df).tokenizedRowCount = 0) := by
  constructor
  · intro h
    have hnone : colIndex df.cols "label" = none := by
      unfold hasCol at h
      exact Option.not_isSome_iff_eq_none.mp (by simp [h])
    have hp : prepare_dataset ambientEntropy df = .error (.keyError "label") := by
      simp [prepare_dataset, hnone]
    exact ⟨hp, by simp [trainStage, hp]⟩
  · intro hlab htext
    obtain ⟨i, hi⟩ := Option.isSome_iff_exists.mp (by simpa [hasCol] using hlab)
    have hp : prepare_dataset ambientEntropy df
        = .error (.valueError "Dataset must contain columns: text, label") := by
      simp [prepare_dataset, hi, htext]
    exact ⟨hp, by simp [trainStage, hp]⟩

/-- Witness for C2 on concrete DataFrames missing one column each. -/
theorem c2_witness :
    prepare_dataset 7 dfNoText
        = .error (.valueError "Dataset must contain columns: text, label") ∧
      prepare_dataset 7 dfNoLabel = .error (.keyError "label") :=
  ⟨((c2_amended_missing_column_errors 7 dfNoText).2 rfl rfl).1,
    ((c2_amended_missing_column_errors 7 dfNoLabel).1 rfl).1⟩

/-- C10: compute_metrics is total over degenerate predictions: on every
non-empty pair of label and prediction arrays in which the positive
class is never predicted, it still returns all four metrics, with
precision, recall and f1 equal to 0 (the zero_division=0 behaviour the
source requests) rather than failing, and a well-defined accuracy
between 0 and 1. -/
theorem c10_metrics_total_on_degenerate (labels preds : List Nat)
    (_hlen : labels.length = preds.length) (hne : labels ≠ [])
    (hnopos : ∀ p ∈ preds, p ≠ 1) :
    (compute_metrics labels preds).precision = 0 ∧
      (compute_metrics labels preds).recallScore = 0 ∧
      (compute_metrics labels preds).f1 = 0 ∧
      0 ≤ (compute_metrics labels preds).accuracy ∧
      (compute_metrics labels preds).accuracy ≤ 1 := by
  have hpp : countPredPos preds = 0 := by
    simp only [countPredPos, List.countP_eq_zero]
    intro p hp
    simpa using hnopos p hp
  have htp : countTP labels preds = 0 := by
    simp only [countTP, List.countP_eq_zero]
    intro lp hlp
    have hmem := (List.of_mem_zip hlp).2
    have := hnopos lp.2 hmem
    simp [this]
  have hcc : (countCorrect labels preds : ℚ) ≤ (labels.length : ℚ) := by
    have h1 : countCorrect labels preds ≤ (labels.zip preds).length :=
      List.countP_le_length _
    have h2 : (labels.zip preds).length ≤ labels.length := by
      rw [List.length_zip]
      exact Nat.min_le_left _ _
    exact_mod_cast le_trans h1 h2
  have hpos : (0 : ℚ) < (labels.length : ℚ) := by
    have : 0 < labels.length := List.length_pos.mpr hne
    exact_mod_cast this
  unfold compute_metrics
  rw [hpp, htp]
  simp only [Nat.cast_zero]
  refine ⟨by simp, by simp, by simp, ?_, ?_⟩
  · exact div_nonneg (by positivity) (le_of_lt hpos)
  · exact (div_le_one hpos).mpr hcc

/-- Witness for C10 on labels with a positive but all-negative
predictions. -/
theorem c10_witness :
    (compute_metrics [1, 0] [0, 0]).precision = 0 ∧
      (compute_metrics [1, 0] [0, 0]).recallScore = 0 ∧
      (compute_metrics [1, 0] [0, 0]).f1 = 0 := by
  have h := c10_metrics_total_on_degenerate [1, 0] [0, 0] rfl
    (by decide) (by decide)
  exact ⟨h.1, h.2.1, h.2.2.1⟩

/-- C7: the Dataset Preparer is deterministic across runs — two
invocations on the same stored file produce identical results, whatever
ambient entropy each process had, because the source pins random_state
to 42 (src/train/train.py line 80) so the split never consults the
ambient randomness — and the run leaves the file system unchanged:
prepare_dataset only reads the file and contains no write. -/
theorem c7_preparer_deterministic_and_pure
    (files : List (String × DF)) (path : String) (a1 a2 : Nat) :
    runPreparer files path a1 = runPreparer files path a2 ∧
      (runPreparer files path a1).filesAfter = files := by
  constructor
  · unfold runPreparer
    cases lookupFile files path with
    | none => rfl
    | some df => rfl
  · unfold runPreparer
    cases lookupFile files path with
    | none => rfl
    | some df => rfl

/-- The class count of a row list is the length of its filtered class
sublist. -/
lemma countClass_eq_classRows_length (i : Nat) (rows : List (List String))
    (c : String) : countClass i rows c = (classRows i rows c).length := by
  simp [countClass, classRows, List.countP_eq_length_filter]

/-- Every row of a class's test share carries that class label. -/
lemma cellAt_of_mem_testChunk {seed i : Nat} {rows : List (List String)}
    {d : String} {r : List String} (h : r ∈ testChunk seed i rows d) :
    cellAt i r == d :=
  (List.mem_filter.mp (List.mem_rotate.mp (List.mem_of_mem_take h))).2

/-- Every row of a class's train share carries that class label. -/
lemma cellAt_of_mem_trainChunk {seed i : Nat} {rows : List (List String)}
    {d : String} {r : List String} (h : r ∈ trainChunk seed i rows d) :
    cellAt i r == d :=
  (List.mem_filter.mp (List.mem_rotate.mp (List.mem_of_mem_drop h))).2

/-- Counting one class across the per-class shares of a duplicate-free
class list: only that class's own share contributes. -/
lemma countClass_flatten_map (i : Nat) (c : String) (classes : List String)
    (f : String → List (List String)) (hnd : classes.Nodup)
    (hmem : ∀ d r, r ∈ f d → cellAt i r == d) (hc : c ∈ classes) :
    countClass i (classes.map f).flatten c = (f c).length := by
  induction classes with
  | nil => cases hc
  | cons d rest ih =>
    obtain ⟨hdnotin, hndrest⟩ := List.nodup_cons.mp hnd
    rw [List.map_cons, List.flatten_cons]
    simp only [countClass, List.countP_append]
    rcases List.mem_cons.mp hc with rfl | hcrest
    · have h1 : List.countP (fun r => cellAt i r == c) (f c) = (f c).length :=
        List.countP_eq_length.mpr (fun r hr => hmem c r hr)
      have h2 : List.countP (fun r => cellAt i r == c)
          (rest.map f).flatten = 0 := by
        rw [List.countP_eq_zero]
        intro r hr hcontra
        obtain ⟨l, hl, hrl⟩ := List.mem_flatten.mp hr
        obtain ⟨d2, hd2, rfl⟩ := List.mem_map.mp hl
        have e1 : cellAt i r = c := eq_of_beq hcontra
        have e2 : cellAt i r = d2 := eq_of_beq (hmem d2 r hrl)
        exact hdnotin ((e1 ▸ e2) ▸ hd2)
      rw [h1, h2]
      omega
    · have hne : c ≠ d := fun h => hdnotin (h ▸ hcrest)
      have h1 : List.countP (fun r => cellAt i r == c) (f d) = 0 := by
        rw [List.countP_eq_zero]
        intro r hr hcontra
        have e1 : cellAt i r = c := eq_of_beq hcontra
        have e2 : cellAt i r = d := eq_of_beq (hmem d r hr)
        exact hne (e1 ▸ e2)
      have h3 := ih hndrest hcrest
      simp only [countClass] at h3
      rw [h1, h3]
      omega

/-- A class with a positive count appears in the deduplicated class
list the split iterates over. -/
lemma mem_classes_of_pos (i : Nat) (rows : List (List String)) (c : String)
    (hc : 0 < countClass i rows c) : c ∈ (rows.map (cellAt i)).dedup := by
  obtain ⟨r, hr, hpr⟩ := List.countP_pos_iff.mp hc
  exact List.mem_dedup.mpr (List.mem_map.mpr ⟨r, hr, eq_of_beq hpr⟩)

/-- Per-class counts of the two partitions the modelled split returns:
the test partition holds one fifth (rounded down) of each class, the
train partition the rest. -/
lemma train_test_split_counts (randomState : Option Nat)
    (ambientEntropy i : Nat) (df : DF) (c : String)
    (hc : 0 < countClass i df.rows c) :
    countClass i (train_test_split randomState ambientEntropy i df).2.rows c
        = countClass i df.rows c / 5 ∧
      countClass i (train_test_split randomState ambientEntropy i df).1.rows c
        = countClass i df.rows c - countClass i df.rows c / 5 := by
  have hcmem := mem_classes_of_pos i df.rows c hc
  have hcn := countClass_eq_classRows_length i df.rows c
  unfold train_test_split
  dsimp only
  constructor
  · rw [countClass_flatten_map i c _ _ (List.nodup_dedup _)
      (fun d r hr => cellAt_of_mem_testChunk hr) hcmem]
    rw [testChunk, List.length_take, List.length_rotate, hcn]
    exact Nat.min_eq_left (Nat.div_le_self _ _)
  · rw [countClass_flatten_map i c _ _ (List.nodup_dedup _)
      (fun d r hr => cellAt_of_mem_trainChunk hr) hcmem]
    rw [trainChunk, List.length_drop, List.length_rotate, hcn]

/-- C6: for every dataset containing at least one row of a class, the
Dataset Preparer's stratified split at the default 80/20 ratio preserves
that class's proportion in both partitions within one row of exact: the
test partition receives the class count divided by five rounded down
(so five times it is within 5 of the class count) and the train
partition the rest (so five times it is within 5 of four times the
class count), and together they exhaust the class. -/
theorem c6_stratified_split_preserves_proportions
    (ambientEntropy : Nat) (df : DF) (trainDF testDF : DF) (i : Nat)
    (c : String) (hi : colIndex df.cols "label" = some i)
    (hok : prepare_dataset ambientEntropy df = .ok (trainDF, testDF))
    (hc : 0 < countClass i df.rows c) :
    countClass i testDF.rows c = countClass i df.rows c / 5 ∧
      countClass i trainDF.rows c
          = countClass i df.rows c - countClass i df.rows c / 5 ∧
      countClass i trainDF.rows c + countClass i testDF.rows c
          = countClass i df.rows c ∧
      5 * countClass i testDF.rows c ≤ countClass i df.rows c ∧
      countClass i df.rows c < 5 * countClass i testDF.rows c + 5 ∧
      4 * countClass i df.rows c ≤ 5 * countClass i trainDF.rows c ∧
      5 * countClass i trainDF.rows c ≤ 4 * countClass i df.rows c + 4 := by
  have hparts := train_test_split_counts (some 42) ambientEntropy i df c hc
  simp only [prepare_dataset, hi] at hok
  split at hok
  · injection hok with h2
    have hfst : (train_test_split (some 42) ambientEntropy i df).1
        = trainDF := congrArg Prod.fst h2
    have hsnd : (train_test_split (some 42) ambientEntropy i df).2
        = testDF := congrArg Prod.snd h2
    rw [hfst, hsnd] at hparts
    obtain ⟨hte, htr⟩ := hparts
    refine ⟨hte, htr, ?_, ?_, ?_, ?_, ?_⟩ <;> omega
  · exact Except.noConfusion hok

/-- Witness for C6 on a concrete five-row dataset (three label-1 rows,
two label-0 rows): the test partition receives 3 / 5 = 0 of the label-1
rows and the train partition the remaining 3. -/
theorem c6_witness :
    countClass 1 ([] : List (List String)) "1"
        = countClass 1 dfSmall.rows "1" / 5 ∧
      countClass 1
          [["b", "0"], ["d", "0"], ["a", "1"], ["c", "1"], ["e", "1"]] "1"
        = countClass 1 dfSmall.rows "1" - countClass 1 dfSmall.rows "1" / 5 := by
  have h := c6_stratified_split_preserves_proportions 3 dfSmall
    ⟨["text", "label"],
      [["b", "0"], ["d", "0"], ["a", "1"], ["c", "1"], ["e", "1"]]⟩
    ⟨["text", "label"], []⟩ 1 "1" rfl rfl (by decide)
  exact ⟨h.1, h.2.1⟩


/-- Invariant run of the early-stopping loop: starting from the initial
state, or from any state whose best value is the maximum of the prefix
evaluated so far with the stale counter counting the evaluations since
that best, the loop runs at most patience evaluations past the best
index and finishes with the best state tracking the maximum of
everything evaluated. -/
lemma esRun_spec (patience : Nat) (hpat : 0 < patience) (f1s : List ℚ) :
    ∀ (rest : List ℚ) (idx : Nat) (s : ESState),
      rest = f1s.drop idx →
      (idx = 0 ∧ s = ⟨none, 0, 0⟩ ∨
        ∃ b, s.bestF1 = some b ∧ s.bestIdx < idx ∧
          s.stale + s.bestIdx + 1 = idx ∧ s.stale < patience ∧
          f1s[s.bestIdx]? = some b ∧
          ∀ j w, j < idx → f1s[j]? = some w → w ≤ b) →
      (esRun patience s idx rest).1 ≤
          (esRun patience s idx rest).2.bestIdx + 1 + patience ∧
        ((esRun patience s idx rest).1 ≠ 0 →
          ∃ b, (esRun patience s idx rest).2.bestF1 = some b ∧
            f1s[(esRun patience s idx rest).2.bestIdx]? = some b ∧
            ∀ j w, j < (esRun patience s idx rest).1 →
              f1s[j]? = some w → w ≤ b) := by
  intro rest
  induction rest with
  | nil =>
    intro idx s hdrop hinv
    rcases hinv with ⟨hidx0, hs⟩ | ⟨b, hb, hlt, hsum, hstale, hbest, hmax⟩
    · subst hidx0
      subst hs
      exact ⟨by simp [esRun], fun h => absurd rfl h⟩
    · refine ⟨?_, fun _ => ⟨b, hb, hbest, fun j w hj hw => hmax j w hj hw⟩⟩
      show idx ≤ s.bestIdx + 1 + patience
      omega
  | cons v rest2 ih =>
    intro idx s hdrop hinv
    have hv : f1s[idx]? = some v := by
      have h0 := List.getElem?_drop f1s idx 0
      rw [← hdrop] at h0
      simpa using h0.symm
    have hdrop2 : rest2 = f1s.drop (idx + 1) := by
      have h1 : (f1s.drop idx).drop 1 = f1s.drop (idx + 1) := by
        rw [List.drop_drop]
      rw [← hdrop] at h1
      simpa using h1
    simp only [esRun]
    by_cases himp : isImprovement s.bestF1 v = true
    · rw [esStep, if_pos himp]
      have hmax2 : ∀ j w, j < idx + 1 → f1s[j]? = some w → w ≤ v := by
        intro j w hj hw
        rcases Nat.lt_succ_iff_lt_or_eq.mp hj with hjlt | hjeq
        · rcases hinv with ⟨hidx0, hs⟩ | ⟨b, hb, hlt2, hsum2, hstale2, hbest2, hmax⟩
          · subst hidx0
            exact absurd hjlt (Nat.not_lt_zero j)
          · have hwb := hmax j w hjlt hw
            have hbv : b < v := by
              rw [hb] at himp
              simpa [isImprovement] using himp
            exact le_trans hwb (le_of_lt hbv)
        · subst hjeq
          rw [hv] at hw
          injection hw with hw2
          rw [hw2]
      rw [if_neg (show ¬ patience ≤ (⟨some v, idx, 0⟩ : ESState).stale by
        show ¬ patience ≤ 0
        omega)]
      exact ih (idx + 1) ⟨some v, idx, 0⟩ hdrop2
        (Or.inr ⟨v, rfl, Nat.lt_succ_self idx, by simp, hpat, hv, hmax2⟩)
    · rw [esStep, if_neg himp]
      rcases hinv with ⟨hidx0, hs⟩ | ⟨b, hb, hlt, hsum, hstale, hbest, hmax⟩
      · exact absurd (by rw [hs]; rfl) himp
      · have hvb : v ≤ b := by
          rw [hb] at himp
          simpa [isImprovement] using himp
        have hmax2 : ∀ j w, j < idx + 1 → f1s[j]? = some w → w ≤ b := by
          intro j w hj hw
          rcases Nat.lt_succ_iff_lt_or_eq.mp hj with hjlt | hjeq
          · exact hmax j w hjlt hw
          · subst hjeq
            rw [hv] at hw
            injection hw with hw2
            exact hw2 ▸ hvb
        by_cases hstop : patience ≤ s.stale + 1
        · rw [if_pos (show patience ≤
            (⟨s.bestF1, s.bestIdx, s.stale + 1⟩ : ESState).stale from hstop)]
          refine ⟨?_,
            fun _ => ⟨b, hb, hbest, fun j w hj hw => hmax2 j w hj hw⟩⟩
          show idx + 1 ≤ s.bestIdx + 1 + patience
          omega
        · rw [if_neg (show ¬ patience ≤
            (⟨s.bestF1, s.bestIdx, s.stale + 1⟩ : ESState).stale from hstop)]
          refine ih (idx + 1) ⟨s.bestF1, s.bestIdx, s.stale + 1⟩ hdrop2
            (Or.inr ⟨b, hb, ?_, ?_, ?_, hbest, hmax2⟩)
          · show s.bestIdx < idx + 1
            omega
          · show s.stale + 1 + s.bestIdx + 1 = idx + 1
            omega
          · show s.stale + 1 < patience
            omega

/-- C8: in every training run, early stopping halts no later than the
configured patience (3) evaluation intervals after the evaluation that
produced the last f1 improvement, and the persisted model is the
checkpoint of the best observed f1 (the maximum over every evaluation
that ran) — not necessarily the final checkpoint, as the concrete run
with f1 sequence 1, 0, 0, 0 shows: it stops after four evaluations yet
persists the first checkpoint. -/
theorem c8_early_stopping_and_best_checkpoint :
    (∀ f1s : List ℚ,
      (trainLoop f1s).evalsRun ≤ (trainLoop f1s).persistedIdx + 1 + 3 ∧
      ((trainLoop f1s).evalsRun ≠ 0 →
        ∃ b, (trainLoop f1s).persistedF1 = some b ∧
          f1s[(trainLoop f1s).persistedIdx]? = some b ∧
          ∀ j w, j < (trainLoop f1s).evalsRun → f1s[j]? = some w → w ≤ b)) ∧
    (trainLoop [(1 : ℚ), 0, 0, 0]).persistedIdx + 1
        ≠ (trainLoop [(1 : ℚ), 0, 0, 0]).evalsRun := by
  constructor
  · intro f1s
    exact esRun_spec 3 (by omega) f1s f1s 0 ⟨none, 0, 0⟩
      (List.drop_zero f1s).symm (Or.inl ⟨rfl, rfl⟩)
  · decide

/-- Witness for C8 on the concrete f1 sequence 1, 0, 0, 0: the loop
stops within patience of the improvement and persists the best (first)
checkpoint, whose f1 is 1. -/
theorem c8_witness :
    (trainLoop [(1 : ℚ), 0, 0, 0]).evalsRun ≤
        (trainLoop [(1 : ℚ), 0, 0, 0]).persistedIdx + 1 + 3 ∧
      (trainLoop [(1 : ℚ), 0, 0, 0]).persistedF1 = some 1 := by
  obtain ⟨hbound, hbest⟩ :=
    c8_early_stopping_and_best_checkpoint.1 [(1 : ℚ), 0, 0, 0]
  obtain ⟨b, hb, hidx, -⟩ := hbest (by decide)
  have e0 : (trainLoop [(1 : ℚ), 0, 0, 0]).persistedIdx = 0 := by decide
  rw [e0] at hidx
  have h1 : (1 : ℚ) = b := by simpa using hidx
  rw [← h1] at hb
  exact ⟨hbound, hb⟩

end Psychofauna
